import Mathlib

attribute [local semireducible] Rat.mul Rat.add Rat.sub Rat.inv

/-!
Verification development for the Lakebase concurrency-testing accelerator.

The definitions below are a shallow embedding of the Python services in
`app/backend/services` (metrics_service.py, lakebase_connection_service.py,
pgbench_service.py) and the data model in `app/backend/models/query_models.py`.
Python floats are modelled as exact rationals, fallible functions as `Except`,
and the stateful pool / scheduler behaviour as explicit transition systems.
-/

/-- Floor of a rational, computed by floor-division of numerator by denominator
(kernel-reducible, unlike the `FloorRing` projection). -/
def ratFloor (q : ℚ) : ℤ := Int.fdiv q.num q.den

/-- Ceiling of a rational, kernel-reducible. -/
def ratCeil (q : ℚ) : ℤ := -ratFloor (-q)

/-- Python `int(x)` on a float: truncation toward zero. -/
def pyInt (q : ℚ) : ℤ := if 0 ≤ q then ratFloor q else ratCeil q

/-- Python truthiness of an `Optional[str]`: `None` and `""` are falsy. -/
def pyTruthyOptStr : Option String → Bool
  | none => false
  | some s => s ≠ ""

/-- Python truthiness of an optional float: `None` and `0.0` are falsy. -/
def pyTruthyOptRat : Option ℚ → Bool
  | none => false
  | some q => q ≠ 0

/-- Python `min(xs)` for a non-empty list (the embedding only applies it under
a non-emptiness guard; the `[]` default is unreachable there). -/
def pyMin : List ℚ → ℚ
  | [] => 0
  | x :: xs => xs.foldl min x

/-- Python `max(xs)` for a non-empty list (same unreachable `[]` default). -/
def pyMax : List ℚ → ℚ
  | [] => 0
  | x :: xs => xs.foldl max x

/-- `QueryExecutionResult` from `models/query_models.py`. -/
structure QueryExecutionResult where
  query_identifier : String
  parameter_set_name : String
  execution_start_time : ℚ
  execution_end_time : ℚ
  duration_ms : ℚ
  success : Bool
  error_message : Option String := none
  error_type : Option String := none
  rows_returned : Option Nat := none
  connection_id : Option String := none
deriving DecidableEq, Repr

/-- The `connection_pool_metrics` dict of a report: `ConcurrencyMetricsService`
fills it from the results, `LakebaseConnectionService` from the engine pool. -/
inductive PoolMetricsInfo where
  | fromResults (total_connections_used : Nat) (average_connection_utilization : ℚ)
  | fromPool (pool_size : Nat) (max_connections : Nat) (concurrency_level : Nat)
deriving DecidableEq, Repr

/-- `ConcurrencyTestReport` from `models/query_models.py`. -/
structure ConcurrencyTestReport where
  test_id : String
  test_start_time : ℚ
  test_end_time : ℚ
  total_duration_seconds : ℚ
  concurrency_level : Nat
  total_queries_executed : Nat
  successful_executions : Nat
  failed_executions : Nat
  success_rate : ℚ
  average_execution_time_ms : ℚ
  min_execution_time_ms : ℚ
  max_execution_time_ms : ℚ
  p95_execution_time_ms : ℚ
  p99_execution_time_ms : ℚ
  throughput_queries_per_second : ℚ
  query_results : List QueryExecutionResult
  connection_pool_metrics : PoolMetricsInfo
  recommendations : List String
deriving DecidableEq, Repr

namespace ConcurrencyMetricsService

/-- `ConcurrencyMetricsService._calculate_percentile`: linear interpolation at
fractional rank `(p/100)·(n−1)` over already-sorted data. For `p ≤ 100` the
`getD` defaults are unreachable, matching the source's unchecked indexing. -/
def calculate_percentile (sorted_data : List ℚ) (percentile : ℕ) : ℚ :=
  if sorted_data = [] then 0
  else
    let index : ℚ := ((percentile : ℚ) / 100) * ((sorted_data.length : ℚ) - 1)
    if index.den = 1 then sorted_data.getD (pyInt index).toNat 0
    else
      let lower := sorted_data.getD (pyInt index).toNat 0
      let upper := sorted_data.getD ((pyInt index).toNat + 1) 0
      lower + (upper - lower) * (index - ((pyInt index : ℤ) : ℚ))

/-- Result of `ConcurrencyMetricsService._analyze_errors`. -/
structure ErrorAnalysis where
  total_errors : Nat
  error_types : List (String × Nat)
  most_common_error : Option String
deriving DecidableEq, Repr

/-- Python `result.error_type or "unknown"`: `None` and `""` fall back. -/
def errorTypeOf (r : QueryExecutionResult) : String :=
  match r.error_type with
  | some s => if s = "" then "unknown" else s
  | none => "unknown"

/-- Increment the count of key `k` in an insertion-ordered association list,
mirroring `error_types[k] = error_types.get(k, 0) + 1` on a Python dict. -/
def bumpCount : List (String × Nat) → String → List (String × Nat)
  | [], k => [(k, 1)]
  | (k', n) :: rest, k =>
      if k' = k then (k', n + 1) :: rest else (k', n) :: bumpCount rest k

/-- First key of maximal count, mirroring Python `max(items, key=...)`, which
keeps the earliest of several maxima. -/
def firstMaxCount : List (String × Nat) → Option String
  | [] => none
  | x :: xs => some (xs.foldl (fun best y => if y.2 > best.2 then y else best) x).1

/-- `ConcurrencyMetricsService._analyze_errors`. -/
def analyze_errors (failed_results : List QueryExecutionResult) : ErrorAnalysis :=
  if failed_results = [] then ⟨0, [], none⟩
  else
    let error_types := failed_results.foldl (fun acc r => bumpCount acc (errorTypeOf r)) []
    { total_errors := failed_results.length
      error_types := error_types
      most_common_error := firstMaxCount error_types }

/-- `ConcurrencyMetricsService._calculate_connection_utilization`: total
duration over results with a truthy connection id, divided by the number of
distinct such ids (the per-id grouping only contributes through these sums). -/
def calculate_connection_utilization (results : List QueryExecutionResult) : ℚ :=
  if results = [] then 0
  else
    let usable := results.filter (fun r => pyTruthyOptStr r.connection_id)
    if usable = [] then 0
    else
      let total_usage := (usable.map (·.duration_ms)).sum
      let total_connections := ((usable.map (fun r => r.connection_id.getD "")).dedup).length
      if total_connections > 0 then total_usage / (total_connections : ℚ) else 0

/-- `ConcurrencyMetricsService._generate_recommendations`. -/
def generate_recommendations (success_rate avg_execution_time throughput : ℚ)
    (error_analysis : ErrorAnalysis) : List String :=
  let recommendations :=
    (if success_rate < 95 / 100 then
      ["Success rate is below 95%. Check for connection issues, query errors, or resource constraints."]
     else []) ++
    (if success_rate < 99 / 100 ∧ error_analysis.total_errors > 0 then
      match error_analysis.most_common_error with
      | some m =>
          if m ≠ "" then
            ["Most common error is \x27" ++ m ++ "\x27. Investigate and fix this issue."]
          else []
      | none => []
     else []) ++
    (if avg_execution_time > 5000 then
      ["Average execution time is high (>5s). Consider optimizing queries, adding indexes, or increasing connection pool size."]
     else []) ++
    (if avg_execution_time > 10000 then
      ["Average execution time is very high (>10s). This may indicate serious performance issues that need immediate attention."]
     else []) ++
    (if throughput < 10 then
      ["Throughput is low (<10 qps). Consider increasing concurrency level, optimizing queries, or scaling resources."]
     else []) ++
    (if throughput > 100 then
      ["High throughput achieved! Consider running longer tests to validate stability under sustained load."]
     else []) ++
    (if success_rate ≥ 99 / 100 ∧ avg_execution_time < 1000 ∧ throughput > 50 then
      ["Excellent performance! Consider running extended tests to validate stability and identify any potential issues."]
     else [])
  if recommendations = [] then
    ["Performance looks good! Consider running longer tests for more comprehensive analysis."]
  else recommendations

/-- `ConcurrencyMetricsService.collect_execution_metrics`. The source also
computes `median_execution_time`, `p90_execution_time` and
`_analyze_query_performance`, none of which flow into the returned report;
those dead locals are omitted here. -/
def collect_execution_metrics (results : List QueryExecutionResult) :
    Except String ConcurrencyTestReport :=
  if results = [] then .error "No execution results provided"
  else
    let total_queries := results.length
    let successful_results := results.filter (·.success)
    let failed_results := results.filter (fun r => !r.success)
    let successful_executions := successful_results.length
    let failed_executions := failed_results.length
    let success_rate :=
      if total_queries > 0 then (successful_executions : ℚ) / (total_queries : ℚ) else 0
    let execution_times := successful_results.map (·.duration_ms)
    let avg_execution_time :=
      if execution_times ≠ [] then execution_times.sum / (execution_times.length : ℚ) else 0
    let min_execution_time := if execution_times ≠ [] then pyMin execution_times else 0
    let max_execution_time := if execution_times ≠ [] then pyMax execution_times else 0
    let sorted_times := List.insertionSort (· ≤ ·) execution_times
    let p95_execution_time :=
      if execution_times ≠ [] then calculate_percentile sorted_times 95 else 0
    let p99_execution_time :=
      if execution_times ≠ [] then calculate_percentile sorted_times 99 else 0
    let start_times := results.map (·.execution_start_time)
    let end_times := results.map (·.execution_end_time)
    let test_start_time := if start_times ≠ [] then pyMin start_times else 0
    let test_end_time := if end_times ≠ [] then pyMax end_times else 0
    let total_duration :=
      if test_start_time ≠ 0 ∧ test_end_time ≠ 0 then test_end_time - test_start_time else 0
    let throughput := if total_duration > 0 then (total_queries : ℚ) / total_duration else 0
    let error_analysis := analyze_errors failed_results
    let recommendations :=
      generate_recommendations success_rate avg_execution_time throughput error_analysis
    let connection_pool_metrics := PoolMetricsInfo.fromResults
      (((results.filter (fun r => pyTruthyOptStr r.connection_id)).map
          (fun r => r.connection_id.getD "")).dedup).length
      (calculate_connection_utilization results)
    .ok {
      test_id := "test_" ++ toString (pyInt test_start_time)
      test_start_time := test_start_time
      test_end_time := test_end_time
      total_duration_seconds := total_duration
      concurrency_level := 0
      total_queries_executed := total_queries
      successful_executions := successful_executions
      failed_executions := failed_executions
      success_rate := success_rate
      average_execution_time_ms := avg_execution_time
      min_execution_time_ms := min_execution_time
      max_execution_time_ms := max_execution_time
      p95_execution_time_ms := p95_execution_time
      p99_execution_time_ms := p99_execution_time
      throughput_queries_per_second := throughput
      query_results := results
      connection_pool_metrics := connection_pool_metrics
      recommendations := recommendations }

end ConcurrencyMetricsService

/-- A test scenario entry of a query configuration dict, as consumed by
`execute_concurrent_queries` (`scenario['name']`, `scenario['parameters']`,
`scenario.get('execution_count', 1)` already resolved to a count). -/
structure TestScenario where
  name : String
  parameters : List String
  execution_count : Nat
deriving DecidableEq, Repr

/-- A query configuration dict as consumed by `execute_concurrent_queries`. -/
structure QueryConfig where
  query_identifier : String
  query_content : String
  test_scenarios : List TestScenario
deriving DecidableEq, Repr

/-- One schedulable unit: a (query, scenario, repetition-index) triple. -/
abbrev UnitSpec := QueryConfig × TestScenario × Nat

/-- The database error raised by a single execution, as seen by the `except`
block in `_execute_single_query_async`: `type(e).__name__` and `str(e)`. -/
structure DBError where
  name : String
  message : String
deriving DecidableEq, Repr

/-- The environment's behaviour for one query execution: wall-clock start and
end plus either a row count or a raised error. -/
inductive DBOutcome where
  | ok (start stop : ℚ) (rows : Nat)
  | err (start stop : ℚ) (e : DBError)
deriving DecidableEq, Repr

namespace LakebaseConnectionService

/-- `LakebaseConnectionService._execute_single_query_async`: always returns a
`QueryExecutionResult`; a raised error is converted into a failed result with
`error_message`/`error_type` populated, never propagated. -/
def execute_single_query_async (query_identifier scenario_name : String)
    (outcome : DBOutcome) : QueryExecutionResult :=
  match outcome with
  | .ok start stop rows =>
      { query_identifier := query_identifier
        parameter_set_name := scenario_name
        execution_start_time := start
        execution_end_time := stop
        duration_ms := (stop - start) * 1000
        success := true
        rows_returned := some rows }
  | .err start stop e =>
      { query_identifier := query_identifier
        parameter_set_name := scenario_name
        execution_start_time := start
        execution_end_time := stop
        duration_ms := (stop - start) * 1000
        success := false
        error_message := some e.message
        error_type := some e.name }

/-- The `_runner` closure: one task per (query, scenario), executing the
scenario `execution_count` times and collecting one result per repetition. -/
def runner (outcome : UnitSpec → DBOutcome) (qc : QueryConfig) (sc : TestScenario) :
    List QueryExecutionResult :=
  (List.range sc.execution_count).map fun k =>
    execute_single_query_async qc.query_identifier sc.name (outcome (qc, sc, k))

/-- `all_results` of `execute_concurrent_queries`: `asyncio.gather` returns the
per-task lists in task-creation order and they are flattened by `extend`. -/
def run_all (outcome : UnitSpec → DBOutcome) (queries : List QueryConfig) :
    List QueryExecutionResult :=
  queries.foldr (fun qc acc =>
    qc.test_scenarios.foldr (fun sc acc' => runner outcome qc sc ++ acc') acc) []

/-- The flattened list of schedulable units, one per (query, scenario,
repetition). -/
def unitSpecs (queries : List QueryConfig) : List UnitSpec :=
  queries.foldr (fun qc acc =>
    qc.test_scenarios.foldr (fun sc acc' =>
      ((List.range sc.execution_count).map fun k => (qc, sc, k)) ++ acc') acc) []

/-- The result of one schedulable unit under a given environment. -/
def execUnit (outcome : UnitSpec → DBOutcome) (u : UnitSpec) : QueryExecutionResult :=
  execute_single_query_async u.1.query_identifier u.2.1.name (outcome u)

/-- `LakebaseConnectionService._generate_recommendations`. -/
def generate_recommendations (success_rate avg_execution_time throughput : ℚ)
    (concurrency_level : Nat) : List String :=
  let recommendations :=
    (if success_rate < 95 / 100 then
      ["Success rate is below 95%. Check for connection issues or query errors."]
     else []) ++
    (if avg_execution_time > 5000 then
      ["Average execution time is high. Consider optimizing queries or increasing connection pool size."]
     else []) ++
    (if throughput < 10 then
      ["Throughput is low. Consider increasing concurrency level or optimizing queries."]
     else []) ++
    (if concurrency_level > 50 ∧ success_rate < 99 / 100 then
      ["High concurrency with low success rate. Consider reducing concurrency level."]
     else [])
  if recommendations = [] then
    ["Performance looks good! Consider running longer tests for more accurate metrics."]
  else recommendations

/-- The percentile computation inlined in `_generate_test_report`: index
`int(len(sorted_times) * p/100)` into the sorted data, falling back to the
maximum when the index is out of range. -/
def report_percentile (sorted_times : List ℚ) (p : ℕ) (max_execution_time : ℚ) : ℚ :=
  let idx := (pyInt ((sorted_times.length : ℚ) * ((p : ℚ) / 100))).toNat
  if idx < sorted_times.length then sorted_times.getD idx 0 else max_execution_time

/-- `LakebaseConnectionService._generate_test_report`. `pool_size` and
`pool_overflow` stand for `engine.pool.size()` and `engine.pool.overflow()`.
The float constants `0.95`/`0.99` are modelled as exact rationals. -/
def generate_test_report (test_id : String) (test_start_time test_end_time : ℚ)
    (concurrency_level : Nat) (pool_size pool_overflow : Nat)
    (results : List QueryExecutionResult) : ConcurrencyTestReport :=
  let total_duration := test_end_time - test_start_time
  let successful_results := results.filter (·.success)
  let failed_results := results.filter (fun r => !r.success)
  let total_queries := results.length
  let successful_executions := successful_results.length
  let failed_executions := failed_results.length
  let success_rate :=
    if total_queries > 0 then (successful_executions : ℚ) / (total_queries : ℚ) else 0
  let execution_times := successful_results.map (·.duration_ms)
  let avg_execution_time :=
    if execution_times ≠ [] then execution_times.sum / (execution_times.length : ℚ) else 0
  let min_execution_time := if execution_times ≠ [] then pyMin execution_times else 0
  let max_execution_time := if execution_times ≠ [] then pyMax execution_times else 0
  let sorted_times := List.insertionSort (· ≤ ·) execution_times
  let p95_execution_time :=
    if execution_times ≠ [] then report_percentile sorted_times 95 max_execution_time
    else 0
  let p99_execution_time :=
    if execution_times ≠ [] then report_percentile sorted_times 99 max_execution_time
    else 0
  let throughput := if total_duration > 0 then (total_queries : ℚ) / total_duration else 0
  let recommendations :=
    generate_recommendations success_rate avg_execution_time throughput concurrency_level
  { test_id := test_id
    test_start_time := test_start_time
    test_end_time := test_end_time
    total_duration_seconds := total_duration
    concurrency_level := concurrency_level
    total_queries_executed := total_queries
    successful_executions := successful_executions
    failed_executions := failed_executions
    success_rate := success_rate
    average_execution_time_ms := avg_execution_time
    min_execution_time_ms := min_execution_time
    max_execution_time_ms := max_execution_time
    p95_execution_time_ms := p95_execution_time
    p99_execution_time_ms := p99_execution_time
    throughput_queries_per_second := throughput
    query_results := results
    connection_pool_metrics :=
      .fromPool pool_size (pool_size + pool_overflow) concurrency_level
    recommendations := recommendations }

/-- `LakebaseConnectionService.execute_concurrent_queries`: runs every unit
(no `_runner` task raises, since `_execute_single_query_async` catches all
errors) and always returns the report built from the complete result list. -/
def execute_concurrent_queries (outcome : UnitSpec → DBOutcome)
    (queries : List QueryConfig) (concurrency_level : Nat)
    (test_id : String) (test_start_time test_end_time : ℚ)
    (pool_size pool_overflow : Nat) : ConcurrencyTestReport :=
  generate_test_report test_id test_start_time test_end_time concurrency_level
    pool_size pool_overflow (run_all outcome queries)

end LakebaseConnectionService

/-! ### Credential rotation (`_provide_token` / `_start_token_refresh`)

Tokens are identified by the index of the `generate_database_credential` call
that produced them: call 0 happens in `initialize_connection_pool`, call `k`
at the `k`-th iteration of the `_refresh_loop`. The pool state carries the
single mutable cell `_postgres_password` and, per open physical connection,
the token it authenticated with. -/

/-- Pool authentication state: the current-credential cell and the tokens the
already-open physical connections were established with, in opening order. -/
structure PoolAuthState where
  refresh_count : Nat
  postgres_password : Nat
  open_connections : List Nat
deriving DecidableEq, Repr

/-- Events affecting authentication: a tick of the background `_refresh_loop`,
or the establishment of a new physical connection (a `do_connect` event). -/
inductive PoolEvent where
  | refresh
  | connect
deriving DecidableEq, Repr

/-- The `_provide_token` listener: reads the current `_postgres_password`
cell at connection-establishment time. -/
def provide_token (s : PoolAuthState) : Nat := s.postgres_password

/-- One step of the pool: `_refresh_loop` overwrites `_postgres_password` with
the freshly generated credential; a new connection authenticates with
`provide_token` of the current state and existing connections are untouched. -/
def pool_step (s : PoolAuthState) : PoolEvent → PoolAuthState
  | .refresh =>
      { refresh_count := s.refresh_count + 1
        postgres_password := s.refresh_count + 1
        open_connections := s.open_connections }
  | .connect =>
      { s with open_connections := s.open_connections ++ [provide_token s] }

/-- Initial pool state right after `initialize_connection_pool`: token 0 in
the cell, no physical connections yet. -/
def pool_init : PoolAuthState :=
  { refresh_count := 0, postgres_password := 0, open_connections := [] }

/-- The pool state after a sequence of refresh/connect events. -/
def pool_run (events : List PoolEvent) : PoolAuthState :=
  events.foldl pool_step pool_init

/-- Number of refresh ticks in an event sequence. -/
def countRefreshes (events : List PoolEvent) : Nat :=
  events.countP (· = PoolEvent.refresh)

/-! ### The concurrency admission gate (`asyncio.Semaphore(concurrency_level)`)

`execute_concurrent_queries` wraps each repetition in `async with sem`. The
scheduler state tracks the semaphore counter and the number of units past the
gate (currently executing a query). -/

/-- Scheduler state: semaphore counter and number of units currently holding
the semaphore (i.e. executing). -/
structure SchedState where
  sem_value : Nat
  executing : Nat
deriving DecidableEq, Repr

/-- One scheduler transition: a unit may enter `async with sem` only while the
counter is positive (otherwise it blocks), and leaving the block releases. -/
inductive SchedStep : SchedState → SchedState → Prop where
  | acquire (s : SchedState) (h : 0 < s.sem_value) :
      SchedStep s ⟨s.sem_value - 1, s.executing + 1⟩
  | release (s : SchedState) (h : 0 < s.executing) :
      SchedStep s ⟨s.sem_value + 1, s.executing - 1⟩

/-- States reachable from the initial state `⟨c, 0⟩` of
`asyncio.Semaphore(c)` with no unit executing. -/
inductive SchedReachable (c : Nat) : SchedState → Prop where
  | init : SchedReachable c ⟨c, 0⟩
  | step (s t : SchedState) : SchedReachable c s → SchedStep s t → SchedReachable c t

/-! ### pgbench output parsing (`PgbenchService`) -/

/-- The `percentiles` dict of `_parse_pgbench_output` (keys `p50`, `p95`,
`p99`, `p99.9`; a missing key is `none`). -/
structure Percentiles where
  p50 : Option ℚ := none
  p95 : Option ℚ := none
  p99 : Option ℚ := none
  p999 : Option ℚ := none
deriving DecidableEq, Repr

/-- The regex-extractable fields of a pgbench stdout, abstracting
`re.search` over the raw text: `none` means the pattern did not match. -/
structure PgbenchStdout where
  tps : Option ℚ := none
  latency_average : Option ℚ := none
  latency_stddev : Option ℚ := none
  percentile_95 : Option ℚ := none
  percentile_99 : Option ℚ := none
deriving DecidableEq, Repr

/-- The `parsed` dict built by `_parse_pgbench_output`. An `Option`-valued
field is `none` exactly when the corresponding key is absent from the dict;
the initializer at the top of the function pre-populates `percentiles` with an
empty dict, so that key is present (`some {}`) from the start. -/
structure ParsedResults where
  tps : Option ℚ := none
  average_latency : Option ℚ := none
  latency_stddev : Option ℚ := none
  latencies : List ℚ := []
  percentiles : Option Percentiles := some {}
deriving DecidableEq, Repr

namespace PgbenchService

/-- `np.percentile(data, q)` with the default linear-interpolation method:
value at fractional rank `(q/100)·(n−1)` of the ascending sort. -/
def np_percentile (data : List ℚ) (q : ℚ) : ℚ :=
  let s := List.insertionSort (· ≤ ·) data
  let index : ℚ := (q / 100) * ((s.length : ℚ) - 1)
  let i := (ratFloor index).toNat
  if index = (ratFloor index : ℤ) then s.getD i 0
  else
    let lower := s.getD i 0
    let upper := s.getD (i + 1) 0
    lower + (upper - lower) * (index - ((ratFloor index : ℤ) : ℚ))

/-- `PgbenchService._calculate_percentiles` over per-transaction log
latencies: empty dict for no data, else p50/p95/p99/p99.9 via
`np.percentile`. -/
def calculate_percentiles (latencies : List ℚ) : Percentiles :=
  if latencies = [] then {}
  else
    { p50 := some (np_percentile latencies 50)
      p95 := some (np_percentile latencies 95)
      p99 := some (np_percentile latencies 99)
      p999 := some (np_percentile latencies (999 / 10)) }

/-- The stdout-regex stage of `_parse_pgbench_output`: the dict initializer
(which pre-populates the `percentiles` key with an empty dict) followed by the
tps / average / stddev / direct-percentile updates. -/
def parse_stdout_fields (stdout : PgbenchStdout) : ParsedResults :=
  let parsed : ParsedResults := {}
  let parsed := { parsed with tps := stdout.tps }
  let parsed :=
    match stdout.latency_average with
    | some v => { parsed with average_latency := some v }
    | none => parsed
  let parsed :=
    match stdout.latency_stddev with
    | some v => { parsed with latency_stddev := some v }
    | none => parsed
  if stdout.percentile_95.isSome ∨ stdout.percentile_99.isSome then
    { parsed with
        percentiles := some { p95 := stdout.percentile_95, p99 := stdout.percentile_99 } }
  else parsed

/-- The `-l` stage of `_parse_pgbench_output`: per-transaction log latencies
and the percentiles recomputed from them when available. -/
def parse_with_logs (parsed : ParsedResults) (has_l : Bool)
    (log_latencies : List ℚ) : ParsedResults :=
  if has_l then
    let parsed := { parsed with latencies := log_latencies }
    if log_latencies ≠ [] then
      let percentiles_from_logs := calculate_percentiles log_latencies
      if percentiles_from_logs ≠ ({} : Percentiles) then
        { parsed with percentiles := some percentiles_from_logs }
      else parsed
    else parsed
  else parsed

/-- The estimation stage of `_parse_pgbench_output`: guarded by
`'percentiles' not in parsed` (key absence, i.e. `Option.isNone`) and the
truthiness of the average and stddev values. -/
def estimate_percentiles_fallback (parsed : ParsedResults) : ParsedResults :=
  if parsed.percentiles.isNone && pyTruthyOptRat parsed.average_latency &&
      pyTruthyOptRat parsed.latency_stddev then
    let avg_lat := parsed.average_latency.getD 0
    let stddev_lat := parsed.latency_stddev.getD 0
    { parsed with
        percentiles := some
          { p95 := some (avg_lat + (1645 / 1000) * stddev_lat)
            p99 := some (avg_lat + (2326 / 1000) * stddev_lat) } }
  else parsed

/-- `PgbenchService._parse_pgbench_output`: the three stages above applied to
the `parsed` dict in the source's statement order. `has_l` records whether
`-l` was on the command line; `log_latencies` are the latencies parsed from
`pgbench_log.*` files when it was. -/
def parse_pgbench_output (stdout : PgbenchStdout) (has_l : Bool)
    (log_latencies : List ℚ) : ParsedResults :=
  estimate_percentiles_fallback
    (parse_with_logs (parse_stdout_fields stdout) has_l log_latencies)

/-- Outcome of the completed pgbench process, as captured by
`subprocess.CompletedProcess`. -/
structure CompletedProcess where
  returncode : Int
  stdout : String
  stderr : String
deriving DecidableEq, Repr

/-- `PgbenchService._execute_pgbench_subprocess` after `communicate()`:
non-zero exit raises carrying the captured stderr, zero exit returns the
captured output. -/
def execute_pgbench_subprocess (p : CompletedProcess) :
    Except String CompletedProcess :=
  if p.returncode ≠ 0 then
    .error ("Pgbench execution failed: " ++ p.stderr)
  else .ok p

end PgbenchService

/-! ### Spec-side definitions (phrased from the claims, for comparison) -/

/-- Nearest-rank percentile exactly as the claim words it: sort the durations
ascending and take the element at zero-based index `floor(p/100 · (n−1))`,
clamping to the maximum when the index is out of range. -/
def specNearestRankPercentile (durations : List ℚ) (p : ℕ) : ℚ :=
  let s := List.insertionSort (· ≤ ·) durations
  let i := p * (s.length - 1) / 100
  if h : i < s.length then s.get ⟨i, h⟩ else pyMax s

/-- The linearly interpolated percentile at fractional rank
`x = (p/100)·(n−1)`: `sorted[⌊x⌋]` when `x` is integral, otherwise
`sorted[⌊x⌋] + (sorted[⌊x⌋+1] − sorted[⌊x⌋])·(x − ⌊x⌋)`, with 0 for an empty
list — the amended description of `_calculate_percentile`. -/
def specInterpolatedPercentile (sorted_data : List ℚ) (p : ℕ) : ℚ :=
  if sorted_data = [] then 0
  else
    let x : ℚ := ((p : ℚ) / 100) * ((sorted_data.length : ℚ) - 1)
    let lower := sorted_data.getD ⌊x⌋.toNat 0
    let upper := sorted_data.getD (⌊x⌋.toNat + 1) 0
    if ((⌊x⌋ : ℤ) : ℚ) = x then lower
    else lower + (upper - lower) * (x - ((⌊x⌋ : ℤ) : ℚ))

/-- The sorted-sample value at index `⌊n·p/100⌋` clamped to the maximum — the
amended description of the percentile in `_generate_test_report`. -/
def specClampedIndexPercentile (durations : List ℚ) (p : ℕ) : ℚ :=
  let s := List.insertionSort (· ≤ ·) durations
  let i := s.length * p / 100
  if i < s.length then s.getD i 0 else pyMax s

/-- Throughput as the claim words it: total attempted executions divided by
the wall-clock span `max end_time − min start_time` across all results. -/
def specWallClockThroughput (results : List QueryExecutionResult) : ℚ :=
  (results.length : ℚ) /
    (pyMax (results.map (·.execution_end_time)) -
      pyMin (results.map (·.execution_start_time)))

/-- Total repetition count `Σ over (query, scenario) of execution_count`. -/
def totalRepetitions (queries : List QueryConfig) : Nat :=
  (queries.map (fun qc => (qc.test_scenarios.map (·.execution_count)).sum)).sum

/-! ### Concrete sample inputs used by witnesses and counterexamples -/

/-- A successful execution result: ran from time 2 to 4, duration 2000 ms. -/
def sampleSuccess : QueryExecutionResult :=
  { query_identifier := "q1"
    parameter_set_name := "s1"
    execution_start_time := 2
    execution_end_time := 4
    duration_ms := 2000
    success := true
    rows_returned := some 1 }

/-- A quick successful execution result with duration 0 ms. -/
def sampleQuick : QueryExecutionResult :=
  { query_identifier := "q1"
    parameter_set_name := "s1"
    execution_start_time := 3
    execution_end_time := 3
    duration_ms := 0
    success := true
    rows_returned := some 1 }

/-- A slow successful execution result with duration 10 ms. -/
def sampleSlow : QueryExecutionResult :=
  { query_identifier := "q2"
    parameter_set_name := "s1"
    execution_start_time := 3
    execution_end_time := 13 / 1000 + 3
    duration_ms := 10
    success := true
    rows_returned := some 1 }

/-- A failed execution result carrying an error type and message. -/
def sampleFailure : QueryExecutionResult :=
  { query_identifier := "q3"
    parameter_set_name := "s1"
    execution_start_time := 3
    execution_end_time := 5
    duration_ms := 2000
    success := false
    error_message := some "syntax error"
    error_type := some "ProgrammingError" }

/-- A one-query, one-scenario workload with two repetitions. -/
def sampleQueries : List QueryConfig :=
  [{ query_identifier := "q1"
     query_content := "SELECT 1"
     test_scenarios := [{ name := "s1", parameters := [], execution_count := 2 }] }]

/-- An environment in which every execution succeeds instantly. -/
def sampleOutcome : UnitSpec → DBOutcome := fun _ => .ok 2 4 1

/-! ## Helper lemmas -/

theorem ratFloor_eq_floor (q : ℚ) : ratFloor q = ⌊q⌋ := by
  rw [Rat.floor_def, ratFloor, Int.fdiv_eq_ediv _ (by positivity)]

theorem pyInt_eq_floor (q : ℚ) (h : 0 ≤ q) : pyInt q = ⌊q⌋ := by
  rw [pyInt, if_pos h, ratFloor_eq_floor]

theorem length_filter_add_length_filter_not {α : Type} (p : α → Bool) (l : List α) :
    (l.filter p).length + (l.filter (fun a => !p a)).length = l.length := by
  induction l with
  | nil => rfl
  | cons a l ih =>
    by_cases h : p a <;> simp [List.filter_cons, h] <;> omega

theorem pool_foldl_refresh_count (events : List PoolEvent) (s : PoolAuthState) :
    (events.foldl pool_step s).refresh_count = s.refresh_count + countRefreshes events := by
  induction events generalizing s with
  | nil => simp [countRefreshes]
  | cons e es ih =>
    cases e <;> simp [List.foldl_cons, ih, pool_step, countRefreshes, List.countP_cons] <;> omega

theorem pool_foldl_password (events : List PoolEvent) (s : PoolAuthState)
    (h : s.postgres_password = s.refresh_count) :
    (events.foldl pool_step s).postgres_password = (events.foldl pool_step s).refresh_count := by
  induction events generalizing s with
  | nil => exact h
  | cons e es ih =>
    cases e <;> exact ih _ (by simp [pool_step, h])

theorem pool_run_password (events : List PoolEvent) :
    (pool_run events).postgres_password = countRefreshes events := by
  have h1 := pool_foldl_password events pool_init rfl
  have h2 := pool_foldl_refresh_count events pool_init
  rw [pool_run, h1, h2]
  simp [pool_init]

theorem sched_invariant (c : Nat) (s : SchedState) (h : SchedReachable c s) :
    s.sem_value + s.executing = c := by
  induction h with
  | init => rfl
  | step s t _ hstep ih =>
    cases hstep with
    | acquire hv => simp only [] at ih ⊢; omega
    | release hr => simp only [] at ih ⊢; omega

/-! ## Claims -/

/-- Claim C10: the metrics aggregator is partial on the empty input — for the
empty list `collect_execution_metrics` raises
`ValueError("No execution results provided")`, and returns a report exactly
for non-empty input. -/
theorem C10_empty_input_is_error :
    ConcurrencyMetricsService.collect_execution_metrics [] =
      .error "No execution results provided" ∧
    ∀ results : List QueryExecutionResult, results ≠ [] →
      ∃ report, ConcurrencyMetricsService.collect_execution_metrics results = .ok report := by
  refine ⟨rfl, fun results h => ?_⟩
  unfold ConcurrencyMetricsService.collect_execution_metrics
  rw [if_neg h]
  exact ⟨_, rfl⟩

/-- Witness for C10 at the one-element list. -/
theorem C10_witness :
    ([sampleSuccess] : List QueryExecutionResult) ≠ [] ∧
    ∃ report, ConcurrencyMetricsService.collect_execution_metrics [sampleSuccess] = .ok report :=
  ⟨List.cons_ne_nil _ _,
    C10_empty_input_is_error.2 [sampleSuccess] (List.cons_ne_nil _ _)⟩

/-- Claim C9: metrics aggregation is a pure function of its input — two
aggregations of the same result list produce identical reports (all fields,
including test_id and recommendations). -/
theorem C9_aggregation_deterministic :
    ∀ results₁ results₂ : List QueryExecutionResult, results₁ = results₂ →
      ConcurrencyMetricsService.collect_execution_metrics results₁ =
        ConcurrencyMetricsService.collect_execution_metrics results₂ :=
  fun _ _ h => congrArg _ h

/-- Witness for C9 at a concrete result list. -/
theorem C9_witness :
    ConcurrencyMetricsService.collect_execution_metrics [sampleSuccess, sampleFailure] =
      ConcurrencyMetricsService.collect_execution_metrics [sampleSuccess, sampleFailure] :=
  C9_aggregation_deterministic [sampleSuccess, sampleFailure] [sampleSuccess, sampleFailure] rfl

/-- Claim C8: the pgbench subprocess step fails exactly on non-zero exit, and
the raised error carries the captured stderr text. -/
theorem C8_nonzero_exit_fatal :
    ∀ p : PgbenchService.CompletedProcess,
      ((∃ e, PgbenchService.execute_pgbench_subprocess p = .error e) ↔ p.returncode ≠ 0) ∧
      (p.returncode ≠ 0 →
        PgbenchService.execute_pgbench_subprocess p =
          .error ("Pgbench execution failed: " ++ p.stderr)) := by
  intro p
  unfold PgbenchService.execute_pgbench_subprocess
  by_cases h : p.returncode = 0 <;> simp [h]

/-- Witness for C8: a process exiting with code 1 and stderr "boom". -/
theorem C8_witness :
    ((1 : Int) ≠ 0) ∧
    PgbenchService.execute_pgbench_subprocess ⟨1, "out", "boom"⟩ =
      .error ("Pgbench execution failed: " ++ "boom") :=
  ⟨by decide, (C8_nonzero_exit_fatal ⟨1, "out", "boom"⟩).2 (by decide)⟩

/-- Claim C4: with concurrency bound `c ≥ 1`, in every reachable state of the
scheduler's step relation at most `c` units hold the counting semaphore. -/
theorem C4_concurrency_bound :
    ∀ (c : Nat) (s : SchedState), 1 ≤ c → SchedReachable c s → s.executing ≤ c := by
  intro c s _ h
  have := sched_invariant c s h
  omega

/-- Witness for C4: with bound 1, the state after one admission is reachable
and holds at most one executing unit. -/
theorem C4_witness : (1 ≤ 1) ∧ (⟨0, 1⟩ : SchedState).executing ≤ 1 :=
  ⟨Nat.le_refl 1,
    C4_concurrency_bound 1 ⟨0, 1⟩ (Nat.le_refl 1)
      (SchedReachable.step _ _ SchedReachable.init
        (SchedStep.acquire ⟨1, 0⟩ (by decide)))⟩

/-- Claim C3: a new physical connection authenticates with the value of the
current-credential cell at establishment time — after `N` refreshes the next
connection uses token `N` — and a refresh leaves the tokens of already-open
connections unchanged. -/
theorem C3_connection_uses_current_token :
    ∀ events : List PoolEvent,
      (pool_run (events ++ [PoolEvent.connect])).open_connections
        = (pool_run events).open_connections ++ [countRefreshes events] ∧
      (pool_run (events ++ [PoolEvent.refresh])).open_connections
        = (pool_run events).open_connections := by
  intro events
  have hp := pool_run_password events
  unfold pool_run at hp
  constructor
  · unfold pool_run
    rw [List.foldl_append]
    simp [pool_step, provide_token, hp]
  · unfold pool_run
    rw [List.foldl_append]
    simp [pool_step]

theorem runner_length (outcome : UnitSpec → DBOutcome) (qc : QueryConfig)
    (sc : TestScenario) :
    (LakebaseConnectionService.runner outcome qc sc).length = sc.execution_count := by
  simp [LakebaseConnectionService.runner]

theorem scenarios_foldr_length (outcome : UnitSpec → DBOutcome) (qc : QueryConfig)
    (scs : List TestScenario) (acc : List QueryExecutionResult) :
    (scs.foldr (fun sc acc' => LakebaseConnectionService.runner outcome qc sc ++ acc') acc).length
      = (scs.map (·.execution_count)).sum + acc.length := by
  induction scs with
  | nil => simp
  | cons sc scs ih =>
    simp only [List.foldr_cons, List.length_append, List.map_cons, List.sum_cons,
      runner_length, ih]
    omega

theorem run_all_length (outcome : UnitSpec → DBOutcome) (queries : List QueryConfig) :
    (LakebaseConnectionService.run_all outcome queries).length = totalRepetitions queries := by
  induction queries with
  | nil => rfl
  | cons qc rest ih =>
    show (qc.test_scenarios.foldr _ (LakebaseConnectionService.run_all outcome rest)).length = _
    rw [scenarios_foldr_length, ih]
    simp [totalRepetitions]

theorem runner_eq_map (outcome : UnitSpec → DBOutcome) (qc : QueryConfig)
    (sc : TestScenario) :
    LakebaseConnectionService.runner outcome qc sc
      = ((List.range sc.execution_count).map fun k => (qc, sc, k)).map
          (LakebaseConnectionService.execUnit outcome) := by
  simp only [LakebaseConnectionService.runner, LakebaseConnectionService.execUnit,
    List.map_map]
  rfl

theorem scenarios_foldr_eq_map (outcome : UnitSpec → DBOutcome) (qc : QueryConfig)
    (scs : List TestScenario) (accU : List UnitSpec) :
    scs.foldr (fun sc acc' => LakebaseConnectionService.runner outcome qc sc ++ acc')
        (accU.map (LakebaseConnectionService.execUnit outcome))
      = (scs.foldr (fun sc acc' =>
            ((List.range sc.execution_count).map fun k => (qc, sc, k)) ++ acc') accU).map
          (LakebaseConnectionService.execUnit outcome) := by
  induction scs with
  | nil => rfl
  | cons sc scs ih =>
    rw [List.foldr_cons, List.foldr_cons, List.map_append, ih, runner_eq_map]

theorem run_all_eq_map (outcome : UnitSpec → DBOutcome) (queries : List QueryConfig) :
    LakebaseConnectionService.run_all outcome queries
      = (LakebaseConnectionService.unitSpecs queries).map
          (LakebaseConnectionService.execUnit outcome) := by
  induction queries with
  | nil => rfl
  | cons qc rest ih =>
    show qc.test_scenarios.foldr _ (LakebaseConnectionService.run_all outcome rest) = _
    rw [ih, scenarios_foldr_eq_map]
    rfl

/-- Claim C5: the report's total executed count equals the sum of repetition
counts over all (query, scenario) pairs — one result per attempted
repetition — and succeeded plus failed equals that total, both in the run's
own report and in the metrics aggregator's report over the same results. -/
theorem C5_total_is_sum_of_repetitions :
    ∀ (outcome : UnitSpec → DBOutcome) (queries : List QueryConfig)
      (concurrency_level : Nat) (test_id : String) (ts te : ℚ) (ps ov : Nat),
      ((LakebaseConnectionService.execute_concurrent_queries outcome queries
          concurrency_level test_id ts te ps ov).total_queries_executed
        = totalRepetitions queries) ∧
      ((LakebaseConnectionService.execute_concurrent_queries outcome queries
          concurrency_level test_id ts te ps ov).successful_executions
        + (LakebaseConnectionService.execute_concurrent_queries outcome queries
            concurrency_level test_id ts te ps ov).failed_executions
        = (LakebaseConnectionService.execute_concurrent_queries outcome queries
            concurrency_level test_id ts te ps ov).total_queries_executed) ∧
      (LakebaseConnectionService.run_all outcome queries ≠ [] →
        (ConcurrencyMetricsService.collect_execution_metrics
            (LakebaseConnectionService.run_all outcome queries)).map
          (fun rep => (rep.total_queries_executed,
            rep.successful_executions + rep.failed_executions))
          = .ok (totalRepetitions queries, totalRepetitions queries)) := by
  intro outcome queries concurrency_level test_id ts te ps ov
  refine ⟨run_all_length outcome queries,
    length_filter_add_length_filter_not _ _, fun h => ?_⟩
  unfold ConcurrencyMetricsService.collect_execution_metrics
  rw [if_neg h]
  simp only [Except.map, Except.ok.injEq, Prod.mk.injEq]
  exact ⟨run_all_length outcome queries,
    (length_filter_add_length_filter_not _ _).trans (run_all_length outcome queries)⟩

/-- Witness for C5 at a concrete two-repetition workload. -/
theorem C5_witness :
    (LakebaseConnectionService.run_all sampleOutcome sampleQueries ≠ []) ∧
    (ConcurrencyMetricsService.collect_execution_metrics
        (LakebaseConnectionService.run_all sampleOutcome sampleQueries)).map
      (fun rep => (rep.total_queries_executed,
        rep.successful_executions + rep.failed_executions))
      = .ok (totalRepetitions sampleQueries, totalRepetitions sampleQueries) :=
  ⟨by decide,
    (C5_total_is_sum_of_repetitions sampleOutcome sampleQueries 5 "t" 0 10 5 5).2.2
      (by decide)⟩

/-- Claim C6: an execution that raises is converted into a failed result with
error kind and message populated, each unit's result depends only on its own
outcome, and the run returns the complete report over all units instead of
propagating the exception. -/
theorem C6_failure_isolation :
    ∀ (outcome : UnitSpec → DBOutcome) (queries : List QueryConfig)
      (concurrency_level : Nat) (test_id : String) (ts te : ℚ) (ps ov : Nat),
      ((LakebaseConnectionService.execute_concurrent_queries outcome queries
          concurrency_level test_id ts te ps ov).query_results
        = (LakebaseConnectionService.unitSpecs queries).map
            (LakebaseConnectionService.execUnit outcome)) ∧
      (∀ (qid sname : String) (s t : ℚ) (e : DBError),
        (LakebaseConnectionService.execute_single_query_async qid sname
            (.err s t e)).success = false ∧
        (LakebaseConnectionService.execute_single_query_async qid sname
            (.err s t e)).error_type = some e.name ∧
        (LakebaseConnectionService.execute_single_query_async qid sname
            (.err s t e)).error_message = some e.message) ∧
      (∀ (qid sname : String) (s t : ℚ) (rows : Nat),
        (LakebaseConnectionService.execute_single_query_async qid sname
            (.ok s t rows)).success = true) := by
  intro outcome queries concurrency_level test_id ts te ps ov
  exact ⟨run_all_eq_map outcome queries,
    fun qid sname s t e => ⟨rfl, rfl, rfl⟩,
    fun qid sname s t rows => rfl⟩

theorem den_one_iff_floor_cast_eq (q : ℚ) : q.den = 1 ↔ ((⌊q⌋ : ℤ) : ℚ) = q := by
  rw [Rat.den_eq_one_iff]
  constructor
  · intro h; rw [← h, Int.floor_intCast]
  · intro h; rw [← h, Rat.num_intCast]

theorem pyInt_natCast_mul_div_toNat (n a b : ℕ) :
    (pyInt ((n : ℚ) * ((a : ℚ) / (b : ℚ)))).toNat = n * a / b := by
  rw [pyInt_eq_floor _ (by positivity)]
  rw [show (n : ℚ) * ((a : ℚ) / (b : ℚ)) = (((n * a : ℕ) : ℚ)) / ((b : ℕ) : ℚ) by
    push_cast; ring]
  rw [Rat.floor_natCast_div_natCast, ← Int.natCast_div, Int.toNat_natCast]

theorem pyInt_mul_div100_toNat (n p : ℕ) :
    (pyInt ((n : ℚ) * ((p : ℚ) / 100))).toNat = n * p / 100 := by
  rw [show (100 : ℚ) = ((100 : ℕ) : ℚ) by norm_num, pyInt_natCast_mul_div_toNat]

theorem report_percentile_eq_clamped (times : List ℚ) (p : ℕ) (hp : p < 100)
    (m : ℚ) (hne : times ≠ []) :
    LakebaseConnectionService.report_percentile (List.insertionSort (· ≤ ·) times) p m
      = specClampedIndexPercentile times p := by
  unfold LakebaseConnectionService.report_percentile specClampedIndexPercentile
  dsimp only
  rw [List.length_insertionSort, pyInt_mul_div100_toNat]
  have hl : 0 < times.length := List.length_pos.mpr hne
  have hidx : times.length * p / 100 < times.length := by
    rw [Nat.div_lt_iff_lt_mul (by norm_num : 0 < 100)]
    exact mul_lt_mul_of_pos_left hp hl
  rw [if_pos hidx, if_pos hidx]

theorem calculate_percentile_eq_interp (l : List ℚ) (p : ℕ) :
    ConcurrencyMetricsService.calculate_percentile l p = specInterpolatedPercentile l p := by
  unfold ConcurrencyMetricsService.calculate_percentile specInterpolatedPercentile
  by_cases hl : l = []
  · rw [if_pos hl, if_pos hl]
  · rw [if_neg hl, if_neg hl]
    dsimp only
    have h1 : (1 : ℚ) ≤ (l.length : ℚ) := by exact_mod_cast List.length_pos.mpr hl
    have hx0 : (0 : ℚ) ≤ ((p : ℚ) / 100) * ((l.length : ℚ) - 1) := by
      have h2 : (0 : ℚ) ≤ (l.length : ℚ) - 1 := by linarith
      positivity
    rw [pyInt_eq_floor _ hx0]
    by_cases hden : (((p : ℚ) / 100) * ((l.length : ℚ) - 1)).den = 1
    · rw [if_pos hden, if_pos ((den_one_iff_floor_cast_eq _).mp hden)]
    · rw [if_neg hden, if_neg (fun hsp => hden ((den_one_iff_floor_cast_eq _).mpr hsp))]

/-- Counterexample to claim C1 as stated: for successful durations [0, 10] and
p = 90 the metrics aggregator returns the interpolated value 9, not the
nearest-rank value 0; and the connection-service report's p95 over the same
durations is the value at index `int(n·0.95)` = 1 (namely 10), not the
nearest-rank value 0. -/
theorem C1_counterexample :
    ConcurrencyMetricsService.calculate_percentile [0, 10] 90 = 9 ∧
    specNearestRankPercentile [0, 10] 90 = 0 ∧
    ConcurrencyMetricsService.calculate_percentile [0, 10] 90 ≠
      specNearestRankPercentile [0, 10] 90 ∧
    (LakebaseConnectionService.generate_test_report "t" 0 10 1 5 5
        [sampleQuick, sampleSlow]).p95_execution_time_ms = 10 ∧
    specNearestRankPercentile
        ([sampleQuick, sampleSlow].map (·.duration_ms)) 95 = 0 ∧
    (LakebaseConnectionService.generate_test_report "t" 0 10 1 5 5
        [sampleQuick, sampleSlow]).p95_execution_time_ms ≠
      specNearestRankPercentile ([sampleQuick, sampleSlow].map (·.duration_ms)) 95 := by
  refine ⟨by decide, by decide, by decide, by decide, by decide, by decide⟩

/-- Amended claim C1: the metrics aggregator's percentile is the linearly
interpolated value at fractional rank `(p/100)·(n−1)` (agreeing with
nearest-rank only when that rank is integral), and the connection-service
report's p95/p99 are the sorted successful durations indexed at
`⌊n·p/100⌋`, clamped to the maximum. -/
theorem C1_percentile_formulas :
    (∀ (sorted_data : List ℚ) (p : ℕ),
      ConcurrencyMetricsService.calculate_percentile sorted_data p
        = specInterpolatedPercentile sorted_data p) ∧
    (∀ (test_id : String) (ts te : ℚ) (c ps ov : Nat)
        (results : List QueryExecutionResult),
      (LakebaseConnectionService.generate_test_report test_id ts te c ps ov
          results).p95_execution_time_ms
        = specClampedIndexPercentile
            ((results.filter (·.success)).map (·.duration_ms)) 95 ∧
      (LakebaseConnectionService.generate_test_report test_id ts te c ps ov
          results).p99_execution_time_ms
        = specClampedIndexPercentile
            ((results.filter (·.success)).map (·.duration_ms)) 99) := by
  refine ⟨calculate_percentile_eq_interp, fun test_id ts te c ps ov results => ?_⟩
  constructor
  · show (if ((results.filter (·.success)).map (·.duration_ms)) ≠ [] then
        LakebaseConnectionService.report_percentile
          (List.insertionSort (· ≤ ·) ((results.filter (·.success)).map (·.duration_ms))) 95
          (if ((results.filter (·.success)).map (·.duration_ms)) ≠ [] then
            pyMax ((results.filter (·.success)).map (·.duration_ms)) else 0)
      else 0) = _
    by_cases hne : ((results.filter (·.success)).map (·.duration_ms)) = []
    · rw [if_neg (fun h => h hne)]
      unfold specClampedIndexPercentile
      simp [hne, pyMax]
    · rw [if_pos hne]
      exact report_percentile_eq_clamped _ 95 (by norm_num) _ hne
  · show (if ((results.filter (·.success)).map (·.duration_ms)) ≠ [] then
        LakebaseConnectionService.report_percentile
          (List.insertionSort (· ≤ ·) ((results.filter (·.success)).map (·.duration_ms))) 99
          (if ((results.filter (·.success)).map (·.duration_ms)) ≠ [] then
            pyMax ((results.filter (·.success)).map (·.duration_ms)) else 0)
      else 0) = _
    by_cases hne : ((results.filter (·.success)).map (·.duration_ms)) = []
    · rw [if_neg (fun h => h hne)]
      unfold specClampedIndexPercentile
      simp [hne, pyMax]
    · rw [if_pos hne]
      exact report_percentile_eq_clamped _ 99 (by norm_num) _ hne

/-- Claim C2 (defect): the mean/stddev percentile-estimation fallback in
`_parse_pgbench_output` is dead code — the dict initializer always inserts a
`percentiles` key, so the `'percentiles' not in parsed` guard never fires. At
the claimed scenario (average = 100 ms, stddev = 20 ms, no directly parsed
percentiles, no transaction logs) the parse returns an *empty* percentiles
dict instead of p95 = 100 + 1.645·20 = 132.9 and p99 = 100 + 2.326·20 = 146.52
marked as estimated. -/
theorem parse_stdout_fields_percentiles_isSome (stdout : PgbenchStdout) :
    (PgbenchService.parse_stdout_fields stdout).percentiles.isSome := by
  rcases stdout with ⟨tps, avg, sd, p95d, p99d⟩
  unfold PgbenchService.parse_stdout_fields
  dsimp only
  cases avg <;> cases sd <;> split_ifs <;> rfl

theorem parse_with_logs_percentiles_isSome (parsed : ParsedResults)
    (has_l : Bool) (lats : List ℚ) (h : parsed.percentiles.isSome) :
    (PgbenchService.parse_with_logs parsed has_l lats).percentiles.isSome := by
  unfold PgbenchService.parse_with_logs
  dsimp only
  split_ifs <;> first | rfl | exact h

theorem estimate_fallback_percentiles_isSome (parsed : ParsedResults)
    (h : parsed.percentiles.isSome) :
    (PgbenchService.estimate_percentiles_fallback parsed).percentiles.isSome := by
  unfold PgbenchService.estimate_percentiles_fallback
  dsimp only
  split_ifs <;> first | rfl | exact h

theorem parse_percentiles_key_always_present (stdout : PgbenchStdout)
    (has_l : Bool) (lats : List ℚ) :
    (PgbenchService.parse_pgbench_output stdout has_l lats).percentiles.isSome :=
  estimate_fallback_percentiles_isSome _
    (parse_with_logs_percentiles_isSome _ has_l lats
      (parse_stdout_fields_percentiles_isSome stdout))

theorem C2_estimation_fallback_dead :
    (∀ (stdout : PgbenchStdout) (has_l : Bool) (lats : List ℚ),
      (PgbenchService.parse_pgbench_output stdout has_l lats).percentiles.isSome) ∧
    PgbenchService.parse_pgbench_output
        { latency_average := some 100, latency_stddev := some 20 } false []
      = { tps := none, average_latency := some 100, latency_stddev := some 20,
          latencies := [], percentiles := some {} } ∧
    (100 + (1645 / 1000 : ℚ) * 20 = 1329 / 10) ∧
    (100 + (2326 / 1000 : ℚ) * 20 = 14652 / 100) :=
  ⟨parse_percentiles_key_always_present, by rfl, by decide, by decide⟩

/-- Counterexample to claim C7 as stated: a run whose report is generated by
`_generate_test_report` with test-level span 10 s but a single result spanning
2 s reports throughput 1/10 qps, not the claimed 1/2 qps over the results'
wall-clock span. -/
theorem C7_counterexample :
    (LakebaseConnectionService.generate_test_report "t" 0 10 1 5 5
        [sampleSuccess]).throughput_queries_per_second = 1 / 10 ∧
    specWallClockThroughput [sampleSuccess] = 1 / 2 ∧
    (LakebaseConnectionService.generate_test_report "t" 0 10 1 5 5
        [sampleSuccess]).throughput_queries_per_second ≠
      specWallClockThroughput [sampleSuccess] := by
  refine ⟨by decide, by decide, by decide⟩

/-- Amended claim C7: `collect_execution_metrics` divides the total attempted
count by the results' wall-clock span `max end − min start` (whenever the two
extremes are nonzero and the span positive), while `_generate_test_report`
divides it by the separately-tracked test-level span
`test_end_time − test_start_time`. -/
theorem C7_throughput_definitions :
    (∀ results : List QueryExecutionResult, results ≠ [] →
      pyMin (results.map (·.execution_start_time)) ≠ 0 →
      pyMax (results.map (·.execution_end_time)) ≠ 0 →
      0 < pyMax (results.map (·.execution_end_time)) -
          pyMin (results.map (·.execution_start_time)) →
      (ConcurrencyMetricsService.collect_execution_metrics results).map
          (·.throughput_queries_per_second)
        = .ok (specWallClockThroughput results)) ∧
    (∀ (test_id : String) (ts te : ℚ) (c ps ov : Nat)
        (results : List QueryExecutionResult), 0 < te - ts →
      (LakebaseConnectionService.generate_test_report test_id ts te c ps ov
          results).throughput_queries_per_second
        = (results.length : ℚ) / (te - ts)) := by
  constructor
  · intro results hne hmin hmax hspan
    have hs : results.map (·.execution_start_time) ≠ [] :=
      fun h => hne (List.map_eq_nil_iff.mp h)
    have he : results.map (·.execution_end_time) ≠ [] :=
      fun h => hne (List.map_eq_nil_iff.mp h)
    unfold ConcurrencyMetricsService.collect_execution_metrics specWallClockThroughput
    rw [if_neg hne]
    simp only [Except.map, Except.ok.injEq]
    rw [if_pos hs, if_pos he, if_pos (And.intro hmin hmax),
      if_pos (show pyMax (results.map (·.execution_end_time)) -
          pyMin (results.map (·.execution_start_time)) > 0 from hspan)]
  · intro test_id ts te c ps ov results hspan
    show (if te - ts > 0 then (results.length : ℚ) / (te - ts) else 0)
        = (results.length : ℚ) / (te - ts)
    rw [if_pos hspan]

/-- Witness for C7 at a single result running from time 2 to 4 inside a test
window from 0 to 10. -/
theorem C7_witness :
    ([sampleSuccess] : List QueryExecutionResult) ≠ [] ∧
    pyMin ([sampleSuccess].map (·.execution_start_time)) ≠ 0 ∧
    pyMax ([sampleSuccess].map (·.execution_end_time)) ≠ 0 ∧
    (0 < pyMax ([sampleSuccess].map (·.execution_end_time)) -
        pyMin ([sampleSuccess].map (·.execution_start_time))) ∧
    (ConcurrencyMetricsService.collect_execution_metrics [sampleSuccess]).map
        (·.throughput_queries_per_second) = .ok (specWallClockThroughput [sampleSuccess]) ∧
    ((0 : ℚ) < 10 - 0) ∧
    (LakebaseConnectionService.generate_test_report "t" 0 10 1 5 5
        [sampleSuccess]).throughput_queries_per_second = (([sampleSuccess].length : ℚ)) / (10 - 0) :=
  ⟨by decide, by decide, by decide, by decide,
    C7_throughput_definitions.1 [sampleSuccess] (by decide) (by decide) (by decide) (by decide),
    by decide,
    C7_throughput_definitions.2 "t" 0 10 1 5 5 [sampleSuccess] (by decide)⟩
